import Mathlib

/-!
Verification development for `SssPSS.py`, a thin SPSS (`.sav`) presentation
layer.  The Python source is shallowly embedded below:

* `spss_format` (the Format Interpreter) becomes a pure function from the
  format-code string and a dynamically typed value (`PyValue`) to
  `Except PyErr (Option String)`: a Python function can return a string,
  fall off the end returning `None` (modelled `Option.none`), or raise
  (modelled `Except.error`).
* Python floats are modelled as rational numbers (`ℚ`); rounding uses
  round-half-to-even, as Python's `round`/`timedelta`/float formatting do.
* Python `datetime` arithmetic is modelled with the standard proleptic
  Gregorian calendar algorithms (`civilFromDays` / `daysFromCivil`).
* `SavColumn._print` and the `SavFile` access stubs are embedded with
  explicit error propagation.
-/

/-- Decimal digit characters of a natural number, most significant first;
`fuel`-driven so that the kernel can reduce it (fuel `n + 1` always
suffices). -/
def natDigitsAux : Nat → Nat → List Char
  | 0, _ => []
  | fuel + 1, n =>
    if n < 10 then [Char.ofNat (48 + n)]
    else natDigitsAux fuel (n / 10) ++ [Char.ofNat (48 + n % 10)]

/-- Decimal digit characters of a natural number, most significant first. -/
def natDigits (n : Nat) : List Char := natDigitsAux (n + 1) n

/-- Decimal string of a natural number. -/
def natStr (n : Nat) : String := String.mk (natDigits n)

/-- Zero-pad the decimal rendering of `n` on the left to width `w`
(C `printf`-style `%0wd`, used for `strftime` fields). -/
def padZeros (w : Nat) (n : Nat) : String :=
  String.mk (List.replicate (w - (natDigits n).length) '0') ++ natStr n

/-- Two-digit zero-padded field, as `strftime` `%d`/`%m`/`%H`/`%M`/`%S`. -/
def pad2 (n : Nat) : String := padZeros 2 n

/-- Character class `[A-Z]` of the source regex. -/
def isUpperAZ (c : Char) : Bool := decide ('A' ≤ c ∧ c ≤ 'Z')

/-- `str.upper()` of Python applied characterwise (ASCII; the regex class
`[A-Z]` only ever matches ASCII letters, so this suffices). -/
def upperChars (s : String) : List Char := s.toList.map Char.toUpper

/-- Numeric value of a run of decimal digit characters (how Python's
`int()` reads the regex groups, and how the format mini-language reads a
width such as `"10"`). -/
def natOfDigits (l : List Char) : Nat :=
  l.foldl (fun a c => a * 10 + (c.toNat - 48)) 0

/-- Python list/Series slice `x[i:]` (as `pandas` `.iloc[i:]`): a negative
`i` counts from the end, clamped; note `x[-0:]` is `x[0:]`, the whole
sequence. -/
def pySliceFrom (i : Int) (l : List α) : List α :=
  if i < 0 then l.drop ((l.length : Int) + i).toNat else l.drop i.toNat

/-- Python list/Series slice `x[:i]` (as `pandas` `.iloc[:i]`). -/
def pySliceTo (i : Int) (l : List α) : List α :=
  if i < 0 then l.take ((l.length : Int) + i).toNat else l.take i.toNat

/-- Python string slice `s[:n]` for `n ≥ 0`. -/
def pyStrTake (s : String) (n : Nat) : String := String.mk (s.toList.take n)

/-- Python exceptions raised by the embedded code paths. -/
inductive PyErr
  | attributeError (msg : String)
  | typeError (msg : String)
  | valueError (msg : String)
  | notImplementedError (msg : String)
deriving DecidableEq, Repr

/-- Dynamically typed Python values flowing through `spss_format`:
strings, numbers (floats modelled as rationals), `datetime.date` values
and `datetime.time` values (as supplied to the DATE/TIME format families
by the external reader). -/
inductive PyValue
  | str (s : String)
  | num (q : ℚ)
  | date (y : Int) (m d : Nat)
  | time (h mi sec : Nat)
deriving DecidableEq, Repr

/-- Groups of `re.match(r"([A-Z]+)(\d+)(\.(\d+))?", fmt)` on the
uppercased code: letters, the width digit run, and the optional
decimals digit run (group 4).  `re.match` anchors only the start of the
string, so any trailing characters after the matched part are ignored.
Greedy scanning is exact here because the three character classes are
disjoint. -/
def regexFormatCode (cs : List Char) : Option (String × List Char × Option (List Char)) :=
  let letters := cs.takeWhile isUpperAZ
  let r1 := cs.dropWhile isUpperAZ
  let digits := r1.takeWhile Char.isDigit
  let r2 := r1.dropWhile Char.isDigit
  if letters.isEmpty ∨ digits.isEmpty then none
  else some (String.mk letters, digits,
    match r2 with
    | '.' :: r3 =>
      let ds := r3.takeWhile Char.isDigit
      if ds.isEmpty then none else some ds
    | _ => none)

/-- Lines 8-10 of the source: uppercase the code and run the regex.
`none` means the match failed (in which case line 10 of the source,
`matches.groups()`, raises `AttributeError` on `None`). -/
def spss_parse (s : String) : Option (String × List Char × Option (List Char)) :=
  regexFormatCode (upperChars s)

/-- Line 11 of the source: `if DEC is None: DEC = 0`.  After it, `DEC` is
either the matched digit *string* or the *integer* `0`; the numeric
branches later do `"...".replace("%D", DEC)`, which raises `TypeError`
when `DEC` is the integer. -/
inductive DecField
  | asInt (n : Nat)
  | asStr (ds : List Char)
deriving DecidableEq, Repr

/-- The line-11 defaulting of the decimals group. -/
def decDefault : Option (List Char) → DecField
  | none => .asInt 0
  | some ds => .asStr ds

/-- Proleptic-Gregorian civil date `(y, m, d)` from a count of days since
1970-01-01 (floor-convention division; `/` and `%` on `Int` are Euclidean,
which agrees with floor division for the positive constant divisors
used here). -/
def civilFromDays (z0 : Int) : Int × Int × Int :=
  let z := z0 + 719468
  let era := z / 146097
  let doe := z % 146097
  let yoe := (doe - doe / 1460 + doe / 36524 - doe / 146096) / 365
  let y := yoe + era * 400
  let doy := doe - (365 * yoe + yoe / 4 - yoe / 100)
  let mp := (5 * doy + 2) / 153
  let d := doy - (153 * mp + 2) / 5 + 1
  let m := mp + (if mp < 10 then 3 else -9)
  (y + (if m ≤ 2 then 1 else 0), m, d)

/-- Days since 1970-01-01 of a proleptic-Gregorian civil date. -/
def daysFromCivil (y m d : Int) : Int :=
  let y2 := y - (if m ≤ 2 then 1 else 0)
  let era := y2 / 400
  let yoe := y2 - era * 400
  let doy := (153 * (m + (if m > 2 then -3 else 9)) + 2) / 5 + d - 1
  let doe := yoe * 365 + yoe / 4 - yoe / 100 + doy
  era * 146097 + doe - 719468

/-- Day number of the SPSS epoch `datetime(1582, 1, 1)`. -/
def spssEpochDays : Int := daysFromCivil 1582 1 1

/-- Round-half-to-even of the rational `n / d` (`d > 0`), as Python's
`round`. -/
def roundHalfEvenDiv (n d : Int) : Int :=
  let q := n / d
  let r := n % d
  if 2 * r < d then q
  else if d < 2 * r then q + 1
  else if q % 2 = 0 then q else q + 1

/-- Total microseconds of `timedelta(seconds=v)`: `timedelta` normalizes
its argument to an integer count of microseconds with
round-half-to-even. -/
def usFromSeconds (v : ℚ) : Int := roundHalfEvenDiv (v.num * 1000000) (v.den : Int)

/-- A Python `datetime.datetime` value (components only). -/
structure PyDateTime where
  year : Int
  month : Nat
  day : Nat
  hour : Nat
  minute : Nat
  second : Nat
  microsecond : Nat
deriving DecidableEq, Repr

/-- Microseconds per day. -/
def usPerDay : Int := 86400000000

/-- Line 30-31 of the source: `datetime(1582, 1, 1) +
timedelta(seconds=value)`.  `timedelta` normalizes to whole days plus a
non-negative remainder (floor semantics), which the Euclidean `/`/`%`
provide for the positive divisor. -/
def datetimeFromSeconds (v : ℚ) : PyDateTime :=
  let totalUs := usFromSeconds v
  let dayCount := totalUs / usPerDay
  let dayRem := totalUs % usPerDay
  let ymd := civilFromDays (dayCount + spssEpochDays)
  let secs := (dayRem / 1000000).toNat
  { year := ymd.1
    month := ymd.2.1.toNat
    day := ymd.2.2.toNat
    hour := secs / 3600
    minute := secs / 60 % 60
    second := secs % 60
    microsecond := (dayRem % 1000000).toNat }

/-- `strftime` `%b`: abbreviated month name. -/
def monthAbbrev : Nat → String
  | 1 => "Jan" | 2 => "Feb" | 3 => "Mar" | 4 => "Apr"
  | 5 => "May" | 6 => "Jun" | 7 => "Jul" | 8 => "Aug"
  | 9 => "Sep" | 10 => "Oct" | 11 => "Nov" | 12 => "Dec"
  | _ => ""

/-- `strftime` `%Y`: the year as an unpadded decimal (glibc behavior; all
claims below are settled in the four-digit range 1000-9999 where this
coincides with zero-padded rendering). -/
def yearStr (y : Int) : String := natStr y.toNat

/-- `strftime("%d-%b-%Y %H:%M")`. -/
def fmt_dmY_HM (dt : PyDateTime) : String :=
  pad2 dt.day ++ "-" ++ monthAbbrev dt.month ++ "-" ++ yearStr dt.year ++ " " ++
    pad2 dt.hour ++ ":" ++ pad2 dt.minute

/-- `strftime("%d-%b-%Y %H:%M:%S")`. -/
def fmt_dmY_HMS (dt : PyDateTime) : String :=
  fmt_dmY_HM dt ++ ":" ++ pad2 dt.second

/-- `strftime("%d-%b-%Y %H:%M:%S.%f")` (`%f` is six microsecond digits). -/
def fmt_dmY_HMS_f (dt : PyDateTime) : String :=
  fmt_dmY_HMS dt ++ "." ++ padZeros 6 dt.microsecond

/-- Fixed-point rendering of `|v|` with `dec` digits after the point
(Python `format(v, ".Df")` without sign or width: correctly rounded
half-to-even; with precision `0` Python prints no decimal point). -/
def fixedAbs (dec : Nat) (v : ℚ) : String :=
  let scale : Int := ((10 ^ dec : Nat) : Int)
  let scaled := roundHalfEvenDiv ((v.num.natAbs : Int) * scale) (v.den : Int)
  natStr (scaled / scale).toNat ++
    (if dec = 0 then "" else "." ++ padZeros dec (scaled % scale).toNat)

/-- Python `format(v, ".Df")`: sign, then the fixed-point magnitude. -/
def qToFixed (dec : Nat) (v : ℚ) : String :=
  (if v < 0 then "-" else "") ++ fixedAbs dec v

/-- Right-justified padding of the format mini-language (`{:>Ws}` and the
width field of `{:W.Df}`): a width string with a leading `0` (and more
digits after it) sets the zero-fill flag. -/
def zeroFlag (widthStr : List Char) : Bool :=
  decide (2 ≤ widthStr.length) && decide (widthStr.head? = some '0')

/-- `"{:>Ws}".format(s)`: right-justify in `W` characters (fill `0` when
the width string carries the zero flag, else spaces). -/
def pyPad (widthStr : List Char) (s : String) : String :=
  let w := natOfDigits widthStr
  let fill := if zeroFlag widthStr then '0' else ' '
  if w ≤ s.length then s else String.mk (List.replicate (w - s.length) fill) ++ s

/-- `"{:W.Df}"` width padding of a signed numeric core: zero fill is
sign-aware (zeros go between the sign and the digits), space fill is
plain right justification. -/
def pyPadNum (widthStr : List Char) (core : String) : String :=
  let w := natOfDigits widthStr
  if zeroFlag widthStr then
    if w ≤ core.length then core
    else if core.startsWith "-" then
      "-" ++ String.mk (List.replicate (w - core.length) '0') ++ core.drop 1
    else String.mk (List.replicate (w - core.length) '0') ++ core
  else if w ≤ core.length then core
  else String.mk (List.replicate (w - core.length) ' ') ++ core

/-- Decimal digits of the fractional part `n / d` (`0 ≤ n < d`), emitted
until the expansion terminates or `fuel` digits were produced (used only
by the `str(value)` fallback for floats; Python prints the shortest
round-tripping form of the underlying binary float, which this
approximates with the exact expansion of the modelled rational). -/
def fracDigits : Nat → Int → Int → List Char
  | 0, _, _ => []
  | _, 0, _ => []
  | fuel + 1, n, d =>
    let n10 := n * 10
    Char.ofNat (48 + (n10 / d).toNat) :: fracDigits fuel (n10 % d) d

/-- Python `str()` of a float value (modelled on the rational): integer
part, a point, and the fractional expansion (`str(1.0) = "1.0"`). -/
def pyFloatStr (q : ℚ) : String :=
  let sign := if q < 0 then "-" else ""
  let n := (q.num.natAbs : Int)
  let d := (q.den : Int)
  let frac := fracDigits 17 (n % d) d
  sign ++ natStr (n / d).toNat ++ "." ++
    (if frac.isEmpty then "0" else String.mk frac)

/-- Python `str(value)` for the fallback branch of `spss_format`
(`str` of `datetime.date` is `YYYY-MM-DD`, of `datetime.time` is
`HH:MM:SS`). -/
def pyStr : PyValue → String
  | .str s => s
  | .num q => pyFloatStr q
  | .date y m d => padZeros 4 y.toNat ++ "-" ++ pad2 m ++ "-" ++ pad2 d
  | .time h mi s => pad2 h ++ ":" ++ pad2 mi ++ ":" ++ pad2 s

/-- The Format Interpreter `spss_format(fmt, value)` of the source,
line by line.  Result: `.ok (some s)` when the Python function returns a
string, `.ok none` when it falls off a `match` with no `return`
(returning `None`), `.error e` when it raises. -/
def spss_format (fmt0 : String) (value : PyValue) : Except PyErr (Option String) :=
  let u := upperChars fmt0
  let fmtU := String.mk u
  match regexFormatCode u with
  | none => .error (.attributeError "\x27NoneType\x27 object has no attribute \x27groups\x27")
  | some (TYPE, WIDTH, decGroup) =>
    let DEC := decDefault decGroup
    if TYPE = "A" then
      match value with
      | .str s => .ok (some (pyPad WIDTH s))
      | _ => .error (.valueError "Unknown format code \x27s\x27")
    else if TYPE = "F" then
      match DEC with
      | .asInt _ => .error (.typeError "replace() argument 2 must be str, not int")
      | .asStr ds =>
        match value with
        | .num q => .ok (some (pyPadNum WIDTH (qToFixed (natOfDigits ds) q)))
        | _ => .error (.valueError "Unknown format code \x27f\x27")
    else if TYPE = "PCT" then
      match DEC with
      | .asInt _ => .error (.typeError "replace() argument 2 must be str, not int")
      | .asStr ds =>
        match value with
        | .num q => .ok (some (pyPadNum WIDTH (qToFixed (natOfDigits ds) q) ++ "%"))
        | _ => .error (.valueError "Unknown format code \x27f\x27")
    else if TYPE = "DOLLAR" then
      match DEC with
      | .asInt _ => .error (.typeError "replace() argument 2 must be str, not int")
      | .asStr ds =>
        match value with
        | .num q => .ok (some ("$" ++ pyPadNum WIDTH (qToFixed (natOfDigits ds) q)))
        | _ => .error (.valueError "Unknown format code \x27f\x27")
    else if TYPE = "DATETIME" then
      match value with
      | .num v =>
        let dt := datetimeFromSeconds v
        .ok (if fmtU = "DATETIME17" then some (fmt_dmY_HM dt)
          else if fmtU = "DATETIME20" then some (fmt_dmY_HMS dt)
          else if fmtU = "DATETIME22" then some (pyStrTake (fmt_dmY_HMS_f dt) 23)
          else none)
      | _ => .error (.typeError "unsupported type for timedelta seconds component")
    else if TYPE = "DATE" ∨ TYPE = "EDATE" ∨ TYPE = "ADATE" ∨ TYPE = "SDATE" then
      match value with
      | .date y m d =>
        .ok (some (if TYPE = "DATE" then pad2 d ++ "-" ++ monthAbbrev m ++ "-" ++ yearStr y
          else if TYPE = "EDATE" then pad2 d ++ "." ++ pad2 m ++ "." ++ yearStr y
          else if TYPE = "ADATE" then pad2 m ++ "/" ++ pad2 d ++ "/" ++ yearStr y
          else if TYPE = "SDATE" then yearStr y ++ "/" ++ pad2 m ++ "/" ++ pad2 d
          else yearStr y ++ "-" ++ pad2 m ++ "-" ++ pad2 d))
      | _ => .error (.attributeError "object has no attribute \x27strftime\x27")
    else if TYPE = "TIME" ∨ TYPE = "MTIME" ∨ TYPE = "DTIME" then
      match value with
      | .time h mi s =>
        .ok (if fmtU = "TIME4" ∨ fmtU = "TIME5" then some (pad2 h ++ ":" ++ pad2 mi)
          else if fmtU = "TIME8" then some (pad2 h ++ ":" ++ pad2 mi ++ ":" ++ pad2 s)
          else none)
      | _ => .error (.attributeError "object has no attribute \x27strftime\x27")
    else .ok (some (pyStr value))

/-- One column of a loaded file (`SavColumn.__init__`): the value-label
mapping is a Python dict, modelled as an insertion-ordered association
list. -/
structure SavColumn where
  name : String
  label : String
  data : List PyValue
  type : String
  value_labels : List (PyValue × String)
deriving DecidableEq, Repr

/-- Python `dict.get(k, default)` on the value-label mapping. -/
def dictGet (d : List (PyValue × String)) (k : PyValue) (default : String) : String :=
  match d.find? (fun p => p.1 == k) with
  | some p => p.2
  | none => default

/-- The f-string conversion of what the inner `fmt` closure returns: a
label or `spss_format`'s result, where a `None` return prints as
`"None"`. -/
def optionStr : Option String → String
  | some s => s
  | none => "None"

/-- The `fmt` closure of `SavColumn._print` (line 87-88):
`self.value_labels.get(cell, spss_format(self.type, cell))`.  Python
evaluates the `.get` default eagerly, so a formatting exception is
raised even for labelled cells; note the closure never consults the
`use_value_labels` parameter. -/
def fmtCell (col : SavColumn) (cell : PyValue) : Except PyErr String :=
  match spss_format col.type cell with
  | .error e => .error e
  | .ok rendered => .ok (dictGet col.value_labels cell (optionStr rendered))

/-- Render a run of cells in order, propagating the first exception (the
generator inside `"\n".join(...)`). -/
def renderCells (col : SavColumn) : List PyValue → Except PyErr (List String)
  | [] => .ok []
  | c :: cs =>
    match fmtCell col c with
    | .error e => .error e
    | .ok s =>
      match renderCells col cs with
      | .error e => .error e
      | .ok rest => .ok (s :: rest)

/-- The `data` section of `SavColumn._print` (lines 90-104): `head`/`tail`
are the Python arguments with `-1` meaning "not requested". -/
def SavColumn.dataSection (col : SavColumn) (head tail : Int) : Except PyErr String :=
  if head ≠ -1 then
    match renderCells col (pySliceTo head col.data) with
    | .error e => .error e
    | .ok strs =>
      .ok (String.intercalate "\n" (strs.map (fun s => "\t" ++ s)) ++ "\n\t…")
  else if tail ≠ -1 then
    match renderCells col (pySliceFrom (-tail) col.data) with
    | .error e => .error e
    | .ok strs =>
      .ok ("\n\t…" ++ String.intercalate "\n" (strs.map (fun s => "\t" ++ s)))
  else if col.data.length < 10 then
    match renderCells col col.data with
    | .error e => .error e
    | .ok strs => .ok (String.intercalate "\n" (strs.map (fun s => "\t" ++ s)))
  else
    match renderCells col (pySliceTo 5 col.data) with
    | .error e => .error e
    | .ok strs1 =>
      match renderCells col (pySliceFrom (-3) col.data) with
      | .error e => .error e
      | .ok strs2 =>
        .ok (String.intercalate "\n" (strs1.map (fun s => "\t" ++ s)) ++ "\n\t…\n" ++
          String.intercalate "\n" (strs2.map (fun s => "\t" ++ s)))

/-- `SavColumn._print(use_value_labels, head, tail)` in full: the header
lines followed by the data section.  The `useValueLabels` parameter is
accepted, and — exactly as in the source — never read. -/
def SavColumn.printCol (col : SavColumn) (useValueLabels : Bool) (head tail : Int) :
    Except PyErr String :=
  let valLabels := String.intercalate "\n\t"
    (col.value_labels.map (fun p => pyStr p.1 ++ "\t=> \x22" ++ p.2 ++ "\x22"))
  match col.dataSection head tail with
  | .error e => .error e
  | .ok data =>
    .ok ("Column name:\t" ++ col.name ++ "\n" ++
      "Column label:\t\x27" ++ col.label ++ "\x27\n" ++
      "Format:\t" ++ col.type ++ "\n" ++
      (if valLabels ≠ "" then "Value labels:\n\t" ++ valLabels ++ "\n"
        else "Value labels:\t(none)\n") ++
      "Data (n=" ++ natStr col.data.length ++ " cases):\n" ++ data)

/-- `SavColumn.__str__` (calls `_print(use_value_labels=True)`). -/
def SavColumn.strCol (col : SavColumn) : Except PyErr String :=
  col.printCol true (-1) (-1)

/-- `SavColumn.__repr__` (calls `_print(use_value_labels=False)`). -/
def SavColumn.reprCol (col : SavColumn) : Except PyErr String :=
  col.printCol false (-1) (-1)

/-- `SavColumn.head(n)`. -/
def SavColumn.headCol (col : SavColumn) (n : Int) : Except PyErr String :=
  col.printCol true n (-1)

/-- `SavColumn.tail(n)`. -/
def SavColumn.tailCol (col : SavColumn) (n : Int) : Except PyErr String :=
  col.printCol true (-1) n

/-- A loaded file: the column mapping keyed by name (insertion order) and
the row count of the underlying dataframe. -/
structure SavFile where
  columns : List (String × SavColumn)
  nrows : Nat
deriving DecidableEq, Repr

/-- A `[]`-subscript on a `SavFile`: a column name or a row index. -/
inductive SavKey
  | colName (s : String)
  | rowIndex (i : Int)
deriving DecidableEq, Repr

/-- The message of the `TypeError` Python raises for
`NotImplemented("SavRow not yet implemented!")`: the `NotImplemented`
singleton (which is *not* the `NotImplementedError` exception class) is
not callable, so the `raise` statement's operand already fails to
evaluate. -/
def notCallableMsg : String := "\x27NotImplementedType\x27 object is not callable"

/-- `SavFile.__getitem__(key, default)` (lines 185-194): a string key
looks the column up with `dict.get`; an integer key executes
`raise NotImplemented(...)`, which raises `TypeError` because
`NotImplemented` is not callable. -/
def SavFile.getitem (f : SavFile) (key : SavKey) (default : Option SavColumn) :
    Except PyErr (Option SavColumn) :=
  match key with
  | .colName s =>
    .ok (match f.columns.find? (fun p => p.1 == s) with
      | some p => some p.2
      | none => default)
  | .rowIndex _ => .error (.typeError notCallableMsg)

/-- `SavFile.rows()` (lines 206-212): also executes
`raise NotImplemented(...)`, raising the same `TypeError`. -/
def SavFile.rowsIter (f : SavFile) : Except PyErr Unit :=
  .error (.typeError notCallableMsg)

/-- Anchored full match of the spec grammar
`<letters><digits>[.<digits>]` (§4.1 of the spec: letters, then a digit
run, then optionally a literal dot and a digit run, with nothing after).
Stated from the spec's words, for comparison with the source's
`re.match`-based `spss_parse`. -/
def matchesFullPattern (s : String) : Bool :=
  let u := upperChars s
  let letters := u.takeWhile isUpperAZ
  let r1 := u.dropWhile isUpperAZ
  let digits := r1.takeWhile Char.isDigit
  let r2 := r1.dropWhile Char.isDigit
  !letters.isEmpty && !digits.isEmpty &&
    (match r2 with
     | [] => true
     | '.' :: r3 => !r3.isEmpty && r3.all Char.isDigit
     | _ => false)

/-- Start-anchored match only: the string begins with one or more letters
followed by at least one digit (what `re.match` actually requires for
the parse to succeed). -/
def matchesStartPattern (s : String) : Bool :=
  let u := upperChars s
  !(u.takeWhile isUpperAZ).isEmpty &&
    !((u.dropWhile isUpperAZ).takeWhile Char.isDigit).isEmpty

/-- Number of characters after the last `.` of a string (the
fractional-seconds field of a rendered datetime). -/
def fracDigitsAfterDot (s : String) : Nat :=
  (s.toList.reverse.takeWhile (fun c => c ≠ '.')).length

/-- C5: `render(parse("DATETIME17"), 90060)` — 90060 s is 1 day + 1 hour +
1 minute past the SPSS epoch 1582-01-01T00:00:00, so the rendering has
date component `02-Jan-1582` and time component `01:01`. -/
theorem C5_main :
    spss_format "DATETIME17" (.num 90060) = .ok (some "02-Jan-1582 01:01") := rfl

/-- C6: `parse("A10")` yields type `A`, width digits `10`, no decimals
group; the absent group defaults to (integer) 0; `render(parse("A10"),
"hi")` right-justifies in 10 characters; `render(parse("F8.2"), 3.5)` is
`"    3.50"`; `render(parse("PCT5.1"), 12.3)` is the width-5 1-decimal
rendering of 12.3 followed by `%`. -/
theorem C6_main :
    spss_parse "A10" = some ("A", ['1', '0'], none) ∧
    decDefault none = DecField.asInt 0 ∧
    spss_format "A10" (.str "hi") = .ok (some "        hi") ∧
    spss_format "F8.2" (.num (mkRat 7 2)) = .ok (some "    3.50") ∧
    spss_format "PCT5.1" (.num (mkRat 123 10)) = .ok (some " 12.3%") :=
  ⟨rfl, rfl, rfl, rfl, rfl⟩

/-- C3: for a DATETIME code of unsupported width (e.g. `DATETIME23`, or
`DATETIME16`), `spss_format` silently returns `None` for every numeric
value — it does not raise any `UnsupportedDatetimeWidth`-style error
(the claim describes the spec's intended behavior; the code falls off
the `match` with no `return`). -/
theorem C3_main (v : ℚ) :
    spss_format "DATETIME23" (.num v) = .ok none ∧
    spss_format "DATETIME16" (.num v) = .ok none :=
  ⟨rfl, rfl⟩

/-- C9: row access `file[i]` and `file.rows()` both raise `TypeError`
(`'NotImplementedType' object is not callable`), because the source
executes `raise NotImplemented(...)` and the `NotImplemented` singleton
is not callable — this is not a `NotImplemented`-style failure as the
claim requires. -/
theorem C9_main (f : SavFile) (i : Int) (d : Option SavColumn) :
    SavFile.getitem f (.rowIndex i) d = .error (.typeError notCallableMsg) ∧
    SavFile.rowsIter f = .error (.typeError notCallableMsg) ∧
    ∀ m : String, PyErr.typeError notCallableMsg ≠ PyErr.notImplementedError m :=
  ⟨rfl, rfl, fun _ h => PyErr.noConfusion h⟩

/-- C1 (counterexample): `render(parse("MTIME5"), 13:05:00)` returns no
value at all (`None`), not the `13:05` that the claim asserts for the
`MTIME` member of the family. -/
theorem C1_counterexample :
    spss_format "MTIME5" (.time 13 5 0) = .ok none ∧
    spss_format "MTIME5" (.time 13 5 0) ≠ .ok (some "13:05") := by
  refine ⟨rfl, ?_⟩
  intro hc
  have h2 : (Except.ok (none : Option String) : Except PyErr (Option String)) =
      .ok (some "13:05") := hc
  simp at h2

/-- C1 (amended): of the TIME/MTIME/DTIME family only the exact codes
`TIME4` and `TIME5` render `HH:MM` and only `TIME8` renders `HH:MM:SS`;
every `MTIME` and `DTIME` code (any width) falls through and returns
`None`. -/
theorem C1_main (h mi s : Nat) :
    spss_format "TIME4" (.time h mi s) = .ok (some (pad2 h ++ ":" ++ pad2 mi)) ∧
    spss_format "TIME5" (.time h mi s) = .ok (some (pad2 h ++ ":" ++ pad2 mi)) ∧
    spss_format "TIME8" (.time h mi s) =
      .ok (some (pad2 h ++ ":" ++ pad2 mi ++ ":" ++ pad2 s)) ∧
    spss_format "MTIME4" (.time h mi s) = .ok none ∧
    spss_format "MTIME5" (.time h mi s) = .ok none ∧
    spss_format "MTIME8" (.time h mi s) = .ok none ∧
    spss_format "DTIME4" (.time h mi s) = .ok none ∧
    spss_format "DTIME5" (.time h mi s) = .ok none ∧
    spss_format "DTIME8" (.time h mi s) = .ok none :=
  ⟨rfl, rfl, rfl, rfl, rfl, rfl, rfl, rfl, rfl⟩

/-- C2 (counterexample): at value 0 the `DATETIME22` rendering is
`01-Jan-1582 00:00:00.00` — the `[:23]` slice leaves exactly two
fractional-seconds digits, not the three the claim asserts. -/
theorem C2_counterexample :
    spss_format "DATETIME22" (.num 0) = .ok (some "01-Jan-1582 00:00:00.00") ∧
    fracDigitsAfterDot "01-Jan-1582 00:00:00.00" = 2 ∧
    fracDigitsAfterDot "01-Jan-1582 00:00:00.00" ≠ 3 :=
  ⟨rfl, rfl, by decide⟩

/-- C4 (counterexample): `"F8X"` does not match the full pattern
`<letters><digits>[.<digits>]`, yet the parse succeeds (as `F`, width
`8`): `re.match` only anchors the start of the string, so trailing
characters are ignored rather than rejected. -/
theorem C4_counterexample :
    matchesFullPattern "F8X" = false ∧
    spss_parse "F8X" = some ("F", ['8'], none) ∧
    (spss_parse "F8X").isSome = true :=
  ⟨rfl, rfl, rfl⟩

/-- A concrete labelled column: format `F8.2`, one cell `1.0`, value label
`1.0 => "Male"`. -/
def exCol8 : SavColumn :=
  { name := "sex", label := "Sex", data := [.num 1], type := "F8.2",
    value_labels := [(.num 1, "Male")] }

/-- C8: `_print` never reads its `use_value_labels` parameter, so the
labels-disabled display (`__repr__`) still shows value labels: on a
column whose single cell `1.0` is labelled `"Male"`, `repr` prints
`Male` where the claim requires the Format Interpreter rendering
`"    1.00"` (the claim matches the evident intent of the
`use_value_labels=False` call in `__repr__`; the code ignores it). -/
theorem C8_main :
    (∀ (col : SavColumn) (u₁ u₂ : Bool) (head tail : Int),
      col.printCol u₁ head tail = col.printCol u₂ head tail) ∧
    SavColumn.reprCol exCol8 =
      .ok ("Column name:\tsex\nColumn label:\t\x27Sex\x27\nFormat:\tF8.2\n" ++
        "Value labels:\n\t1.0\t=> \x22Male\x22\nData (n=1 cases):\n\tMale") ∧
    SavColumn.reprCol exCol8 = SavColumn.strCol exCol8 ∧
    spss_format "F8.2" (.num 1) = .ok (some "    1.00") :=
  ⟨fun _ _ _ _ _ => rfl, rfl, rfl, rfl⟩

/-- When a run of cells renders without an exception, so does every
`take`/`drop` of it, to the corresponding `take`/`drop` of the rendered
strings (and the lengths agree). -/
theorem renderCells_ok (col : SavColumn) :
    ∀ (l : List PyValue) (strs : List String), renderCells col l = .ok strs →
      strs.length = l.length ∧
      (∀ n, renderCells col (l.take n) = .ok (strs.take n)) ∧
      (∀ n, renderCells col (l.drop n) = .ok (strs.drop n)) := by
  intro l
  induction l with
  | nil =>
    intro strs h
    simp only [renderCells] at h
    obtain rfl : ([] : List String) = strs := by
      injection h
    refine ⟨rfl, fun n => ?_, fun n => ?_⟩
    · simp [renderCells]
    · simp [renderCells]
  | cons c cs ih =>
    intro strs h
    rw [renderCells] at h
    cases hf : fmtCell col c with
    | error e => rw [hf] at h; exact absurd h (by simp)
    | ok s =>
      rw [hf] at h
      cases hr : renderCells col cs with
      | error e => rw [hr] at h; exact absurd h (by simp)
      | ok rest =>
        rw [hr] at h
        obtain rfl : s :: rest = strs := by injection h
        obtain ⟨ihlen, ihtake, ihdrop⟩ := ih rest hr
        refine ⟨by simp [ihlen], fun n => ?_, fun n => ?_⟩
        · cases n with
          | zero => simp [renderCells]
          | succ m =>
            simp only [List.take_succ_cons]
            rw [renderCells, hf, ihtake m]
        · cases n with
          | zero =>
            simp only [List.drop_zero]
            rw [renderCells, hf, hr]
          | succ m =>
            simp only [List.drop_succ_cons]
            exact ihdrop m

/-- C7: with no head/tail request, the data section shows every row when
the column has fewer than 10 rows, and exactly the first 5 rows, an
ellipsis line, and the last 3 rows when it has 10 or more. -/
theorem C7_main (col : SavColumn) (strs : List String)
    (hok : renderCells col col.data = .ok strs) :
    col.dataSection (-1) (-1) =
      .ok (if col.data.length < 10
        then String.intercalate "\n" (strs.map (fun s => "\t" ++ s))
        else String.intercalate "\n" ((strs.take 5).map (fun s => "\t" ++ s)) ++
          "\n\t…\n" ++
          String.intercalate "\n"
            ((strs.drop (strs.length - 3)).map (fun s => "\t" ++ s))) := by
  obtain ⟨hlen, htake, hdrop⟩ := renderCells_ok col col.data strs hok
  unfold SavColumn.dataSection
  rw [if_neg (by norm_num), if_neg (by norm_num)]
  by_cases hlt : col.data.length < 10
  · rw [if_pos hlt, if_pos hlt, hok]
  · rw [if_neg hlt, if_neg hlt]
    have h5 : renderCells col (pySliceTo 5 col.data) = .ok (strs.take 5) := htake 5
    have h3 : renderCells col (pySliceFrom (-3) col.data) =
        .ok (strs.drop (strs.length - 3)) := by
      have e3 : pySliceFrom (-3) col.data = col.data.drop (col.data.length - 3) := by
        unfold pySliceFrom
        rw [if_pos (by norm_num)]
        congr 1
        omega
      rw [e3, hdrop (col.data.length - 3), hlen]
    rw [h5, h3]

/-- A concrete 3-row unlabelled `F4.0` column. -/
def exC7 : SavColumn :=
  { name := "v", label := "", data := [.num 1, .num 2, .num 3], type := "F4.0",
    value_labels := [] }

/-- C7 (witness): on a concrete 3-row column the hypothesis of
`C7_main` holds and the short branch prints all three rows. -/
theorem C7_witness :
    renderCells exC7 exC7.data = .ok ["   1", "   2", "   3"] ∧
    SavColumn.dataSection exC7 (-1) (-1) = .ok "\t   1\n\t   2\n\t   3" :=
  ⟨rfl, C7_main exC7 ["   1", "   2", "   3"] rfl⟩

/-- C10: requesting `tail(0)` does not display zero rows: `-0` is `0`, so
the slice `iloc[-0:]` is the whole column and the data section shows the
ellipsis marker followed by every row. -/
theorem C10_main (col : SavColumn) (strs : List String) (hne : col.data ≠ [])
    (hok : renderCells col col.data = .ok strs) :
    col.dataSection (-1) 0 =
      .ok ("\n\t…" ++ String.intercalate "\n" (strs.map (fun s => "\t" ++ s))) := by
  unfold SavColumn.dataSection
  rw [if_neg (by norm_num), if_pos (by norm_num)]
  have h2 : renderCells col (pySliceFrom (-(0 : Int)) col.data) = .ok strs := hok
  rw [h2]

/-- A concrete 2-row unlabelled `F4.0` column. -/
def exC10 : SavColumn :=
  { name := "w", label := "", data := [.num 1, .num 2], type := "F4.0",
    value_labels := [] }

/-- C10 (witness): on a concrete non-empty column `tail(0)`'s data section
contains both rows after the ellipsis marker. -/
theorem C10_witness :
    exC10.data ≠ [] ∧ renderCells exC10 exC10.data = .ok ["   1", "   2"] ∧
    SavColumn.dataSection exC10 (-1) 0 = .ok "\n\t…\t   1\n\t   2" :=
  ⟨by decide, rfl, C10_main exC10 ["   1", "   2"] (by decide) rfl⟩

/-- C4 (amended): the parse succeeds exactly when the string starts with
one or more letters followed by at least one digit (`re.match` anchors
only the start, so trailing characters are ignored); in particular every
string that fully matches `<letters><digits>[.<digits>]` parses
successfully, and when no such start exists the parse attempt raises
`AttributeError` (from `None.groups()`), not a named
`MalformedFormatCode` error. -/
theorem C4_main (s : String) (v : PyValue) :
    ((spss_parse s).isSome = matchesStartPattern s) ∧
    (matchesFullPattern s = true → (spss_parse s).isSome = true) ∧
    (matchesStartPattern s = false →
      spss_format s v =
        .error (.attributeError
          "\x27NoneType\x27 object has no attribute \x27groups\x27")) := by
  have h1 : (spss_parse s).isSome = matchesStartPattern s := by
    simp only [spss_parse, regexFormatCode, matchesStartPattern]
    by_cases hl : ((upperChars s).takeWhile isUpperAZ).isEmpty
    · rw [if_pos (Or.inl hl)]
      simp [hl]
    · by_cases hd : (((upperChars s).dropWhile isUpperAZ).takeWhile Char.isDigit).isEmpty
      · rw [if_pos (Or.inr hd)]
        simp [hd]
      · rw [if_neg (by simp [hl, hd])]
        simp [hl, hd]
  refine ⟨h1, ?_, ?_⟩
  · intro hfull
    rw [h1]
    simp only [matchesFullPattern, Bool.and_eq_true] at hfull
    simp only [matchesStartPattern]
    simp [hfull.1.1, hfull.1.2]
  · intro hstart
    rw [← h1] at hstart
    simp only [spss_format]
    cases hp : spss_parse s with
    | none =>
      simp only [spss_parse] at hp
      rw [hp]
    | some g =>
      rw [hp] at hstart
      simp at hstart

/-- C4 (witness): `"F8.2"` fully matches the pattern and parses; `"8F"`
has no letters-then-digit start, and formatting with it raises the
`AttributeError`. -/
theorem C4_witness :
    matchesFullPattern "F8.2" = true ∧
    (spss_parse "F8.2").isSome = true ∧
    matchesStartPattern "8F" = false ∧
    spss_format "8F" (.num 0) =
      .error (.attributeError
        "\x27NoneType\x27 object has no attribute \x27groups\x27") :=
  ⟨rfl, (C4_main "F8.2" (.num 0)).2.1 rfl, rfl, (C4_main "8F" (.num 0)).2.2 rfl⟩

/-- The fuel argument of `natDigitsAux` is irrelevant once it exceeds the
number. -/
theorem natDigitsAux_congr (n : Nat) :
    ∀ f g : Nat, n < f → n < g → natDigitsAux f n = natDigitsAux g n := by
  induction n using Nat.strong_induction_on with
  | _ n ih =>
    intro f g hf hg
    cases f with
    | zero => omega
    | succ f0 =>
      cases g with
      | zero => omega
      | succ g0 =>
        simp only [natDigitsAux]
        by_cases hn : n < 10
        · simp [hn]
        · have hdiv : n / 10 < n := Nat.div_lt_self (by omega) (by omega)
          simp only [hn, if_false]
          rw [ih (n / 10) hdiv f0 g0 (by omega) (by omega)]

/-- `natDigits` on a one-digit number. -/
theorem natDigits_lt10 {n : Nat} (h : n < 10) :
    natDigits n = [Char.ofNat (48 + n)] := by
  simp [natDigits, natDigitsAux, h]

/-- `natDigits` unfolds one digit at a time. -/
theorem natDigits_ge10 {n : Nat} (h : 10 ≤ n) :
    natDigits n = natDigits (n / 10) ++ [Char.ofNat (48 + n % 10)] := by
  have hdiv : n / 10 < n := Nat.div_lt_self (by omega) (by omega)
  have step : ∀ f m : Nat, natDigitsAux (f + 1) m =
      if m < 10 then [Char.ofNat (48 + m)]
      else natDigitsAux f (m / 10) ++ [Char.ofNat (48 + m % 10)] :=
    fun _ _ => rfl
  show natDigitsAux (n + 1) n =
    natDigitsAux (n / 10 + 1) (n / 10) ++ [Char.ofNat (48 + n % 10)]
  rw [step n n]
  simp only [Nat.not_lt.2 h, if_false]
  rw [natDigitsAux_congr (n / 10) n (n / 10 + 1) (by omega) (by omega)]

/-- A number below `10 ^ k` has at most `k` digits (`k ≥ 1`). -/
theorem natDigits_length_le (k : Nat) :
    ∀ n, 1 ≤ k → n < 10 ^ k → (natDigits n).length ≤ k := by
  induction k with
  | zero => omega
  | succ k0 ih =>
    intro n _ hlt
    by_cases hn : n < 10
    · rw [natDigits_lt10 hn]
      simp
    · have h10 : 10 ≤ n := by omega
      rw [natDigits_ge10 h10]
      have hk0 : 1 ≤ k0 := by
        rcases Nat.eq_zero_or_pos k0 with h0 | h0
        · subst h0; simp at hlt; omega
        · exact h0
      have hpow : n < 10 ^ k0 * 10 := by
        rw [← pow_succ]
        exact hlt
      have hdiv : n / 10 < 10 ^ k0 := by omega
      have := ih (n / 10) hk0 hdiv
      simp only [List.length_append, List.length_cons, List.length_nil]
      omega

/-- A number at least `10 ^ k` has more than `k` digits. -/
theorem natDigits_length_ge (k : Nat) :
    ∀ n, 10 ^ k ≤ n → k + 1 ≤ (natDigits n).length := by
  induction k with
  | zero =>
    intro n _
    by_cases hn : n < 10
    · rw [natDigits_lt10 hn]; simp
    · rw [natDigits_ge10 (by omega)]; simp
  | succ k0 ih =>
    intro n hge
    have h10 : 10 ≤ n := by
      have : 10 ^ 1 ≤ 10 ^ (k0 + 1) := Nat.pow_le_pow_right (by omega) (by omega)
      simp at this
      omega
    rw [natDigits_ge10 h10]
    have hdiv : 10 ^ k0 ≤ n / 10 := by
      have hpow : 10 ^ k0 * 10 ≤ n := by
        rw [← pow_succ]
        exact hge
      omega
    have := ih (n / 10) hdiv
    simp only [List.length_append, List.length_cons, List.length_nil]
    omega

/-- A number in `[1000, 9999]` has exactly four digits. -/
theorem natDigits_length_four {n : Nat} (h1 : 1000 ≤ n) (h2 : n ≤ 9999) :
    (natDigits n).length = 4 :=
  le_antisymm (natDigits_length_le 4 n (by omega) (by omega))
    (natDigits_length_ge 3 n (by norm_num; omega))

/-- Length of a zero-padded field. -/
theorem padZeros_length {w n : Nat} (h : (natDigits n).length ≤ w) :
    (padZeros w n).length = w := by
  have : (padZeros w n).length = (w - (natDigits n).length) + (natDigits n).length := by
    simp [padZeros, natStr, String.length_append]
  omega

/-- A two-digit field really has two characters for `n < 100`. -/
theorem pad2_length {n : Nat} (h : n < 100) : (pad2 n).length = 2 :=
  padZeros_length (natDigits_length_le 2 n (by omega) (by omega))

/-- Month abbreviations are three characters long. -/
theorem monthAbbrev_length {m : Nat} (h1 : 1 ≤ m) (h2 : m ≤ 12) :
    (monthAbbrev m).length = 3 := by
  interval_cases m <;> rfl

/-- Every character emitted by `natDigits` is a decimal digit. -/
theorem natDigits_all_digit (n : Nat) :
    ∀ c ∈ natDigits n, c.isDigit = true := by
  induction n using Nat.strong_induction_on with
  | _ n ih =>
    intro c hc
    by_cases hn : n < 10
    · rw [natDigits_lt10 hn] at hc
      rcases List.mem_singleton.1 hc with rfl
      revert hn
      generalize n = r
      intro hr
      interval_cases r <;> decide
    · have hdiv : n / 10 < n := Nat.div_lt_self (by omega) (by omega)
      rw [natDigits_ge10 (by omega)] at hc
      rcases List.mem_append.1 hc with hc2 | hc2
      · exact ih (n / 10) hdiv c hc2
      · rcases List.mem_singleton.1 hc2 with rfl
        have hr : n % 10 < 10 := by omega
        revert hr
        generalize n % 10 = r
        intro hr
        interval_cases r <;> decide

/-- Every character of a zero-padded field is a decimal digit. -/
theorem padZeros_all_digit (w n : Nat) :
    ∀ c ∈ (padZeros w n).toList, c.isDigit = true := by
  intro c hc
  have : (padZeros w n).toList =
      List.replicate (w - (natDigits n).length) '0' ++ natDigits n := by
    simp [padZeros, natStr, String.data_append]
  rw [this] at hc
  rcases List.mem_append.1 hc with hc2 | hc2
  · rw [List.eq_of_mem_replicate hc2]
    decide
  · exact natDigits_all_digit n c hc2

/-- The civil date produced by `civilFromDays` has a valid month and a
valid day-of-month. -/
theorem civilFromDays_bounds (z : Int) :
    1 ≤ (civilFromDays z).2.1 ∧ (civilFromDays z).2.1 ≤ 12 ∧
    1 ≤ (civilFromDays z).2.2 ∧ (civilFromDays z).2.2 ≤ 31 := by
  unfold civilFromDays
  dsimp only
  split_ifs <;> omega

/-- Component bounds of the embedded `datetime` value: valid month and
day, time-of-day fields in range, microseconds below one million. -/
theorem datetimeFromSeconds_bounds (v : ℚ) :
    1 ≤ (datetimeFromSeconds v).month ∧ (datetimeFromSeconds v).month ≤ 12 ∧
    1 ≤ (datetimeFromSeconds v).day ∧ (datetimeFromSeconds v).day ≤ 31 ∧
    (datetimeFromSeconds v).hour ≤ 23 ∧ (datetimeFromSeconds v).minute ≤ 59 ∧
    (datetimeFromSeconds v).second ≤ 59 ∧
    (datetimeFromSeconds v).microsecond ≤ 999999 := by
  have hc := civilFromDays_bounds (usFromSeconds v / usPerDay + spssEpochDays)
  unfold datetimeFromSeconds
  dsimp only
  unfold usPerDay
  unfold usPerDay at hc
  omega

/-- The `%d-%b-%Y %H:%M:%S` rendering is exactly 20 characters long for a
valid datetime with a four-digit year. -/
theorem fmt_dmY_HMS_length (dt : PyDateTime)
    (hm1 : 1 ≤ dt.month) (hm2 : dt.month ≤ 12) (hd : dt.day < 100)
    (hh : dt.hour < 100) (hmi : dt.minute < 100) (hs : dt.second < 100)
    (hy1 : 1000 ≤ dt.year) (hy2 : dt.year ≤ 9999) :
    (fmt_dmY_HMS dt).length = 20 := by
  have hy : (natDigits dt.year.toNat).length = 4 :=
    natDigits_length_four (by omega) (by omega)
  simp only [fmt_dmY_HMS, fmt_dmY_HM, yearStr, natStr, String.length_append,
    pad2_length hd, pad2_length hh, pad2_length hmi, pad2_length hs,
    monthAbbrev_length hm1 hm2]
  simp [hy]
  decide

/-- C2 (amended): for every value whose datetime falls in the four-digit
year range, the `DATETIME22` rendering is the `%d-%b-%Y %H:%M:%S` stamp
followed by a point and exactly TWO fractional-seconds digits: the
`[:23]` slice cuts the six `%f` digits after two, because the prefix up
to and including the point is already 21 characters. -/
theorem C2_main (v : ℚ)
    (hy1 : 1000 ≤ (datetimeFromSeconds v).year)
    (hy2 : (datetimeFromSeconds v).year ≤ 9999) :
    ∃ ff : String,
      spss_format "DATETIME22" (.num v) =
        .ok (some (fmt_dmY_HMS (datetimeFromSeconds v) ++ "." ++ ff)) ∧
      ff.length = 2 ∧ ∀ c ∈ ff.toList, c.isDigit = true := by
  obtain ⟨hm1, hm2, hd1, hd2, hh, hmi, hs, hus⟩ := datetimeFromSeconds_bounds v
  have hX : (fmt_dmY_HMS (datetimeFromSeconds v)).length = 20 :=
    fmt_dmY_HMS_length _ hm1 hm2 (by omega) (by omega) (by omega) (by omega) hy1 hy2
  have hYlen : (padZeros 6 (datetimeFromSeconds v).microsecond).length = 6 :=
    padZeros_length (natDigits_length_le 6 _ (by omega) (by omega))
  refine ⟨String.mk ((padZeros 6 (datetimeFromSeconds v).microsecond).toList.take 2),
    ?_, ?_, ?_⟩
  · have h0 : spss_format "DATETIME22" (.num v) =
        .ok (some (pyStrTake (fmt_dmY_HMS_f (datetimeFromSeconds v)) 23)) := rfl
    rw [h0]
    have hsplit : (fmt_dmY_HMS_f (datetimeFromSeconds v)).toList =
        (fmt_dmY_HMS (datetimeFromSeconds v)).toList ++
          '.' :: (padZeros 6 (datetimeFromSeconds v).microsecond).toList := by
      show (fmt_dmY_HMS_f (datetimeFromSeconds v)).data = _
      simp [fmt_dmY_HMS_f, String.data_append]
    have h20 : (fmt_dmY_HMS (datetimeFromSeconds v)).toList.length = 20 := hX
    have heq : pyStrTake (fmt_dmY_HMS_f (datetimeFromSeconds v)) 23 =
        fmt_dmY_HMS (datetimeFromSeconds v) ++ "." ++
          String.mk ((padZeros 6 (datetimeFromSeconds v).microsecond).toList.take 2) := by
      unfold pyStrTake
      rw [hsplit, List.take_append_eq_append_take,
        List.take_of_length_le (by omega), h20]
      have hc3 : ('.' :: (padZeros 6 (datetimeFromSeconds v).microsecond).toList).take
          (23 - 20) =
          '.' :: (padZeros 6 (datetimeFromSeconds v).microsecond).toList.take 2 := rfl
      rw [hc3]
      apply String.ext
      simp [String.data_append]
    rw [heq]
  · show ((padZeros 6 (datetimeFromSeconds v).microsecond).toList.take 2).length = 2
    have : (padZeros 6 (datetimeFromSeconds v).microsecond).toList.length = 6 := hYlen
    simp [List.length_take, this]
    omega
  · intro c hc
    exact padZeros_all_digit 6 (datetimeFromSeconds v).microsecond c
      (List.take_subset _ _ hc)

/-- C2 (witness): value 0 maps to year 1582, and instantiating
`C2_main` there exhibits the two-digit fractional field. -/
theorem C2_witness :
    1000 ≤ (datetimeFromSeconds 0).year ∧ (datetimeFromSeconds 0).year ≤ 9999 ∧
    ∃ ff : String,
      spss_format "DATETIME22" (.num 0) =
        .ok (some (fmt_dmY_HMS (datetimeFromSeconds 0) ++ "." ++ ff)) ∧
      ff.length = 2 ∧ ∀ c ∈ ff.toList, c.isDigit = true :=
  ⟨by decide, by decide, C2_main 0 (by decide) (by decide)⟩
